import Mathlib

/-!
Verification of the cloud-region query/filter/aggregation engine
(`src/tools/index.ts` plus the grouping helpers of the data module).

Shallow embedding conventions:
* JS strings are `String`; string-literal union types (provider ids, tiers,
  statuses, continents, certifications, region types) are `String`, matching
  their JS runtime representation.
* JS numbers that the engine only stores or compares are `ℚ` (the data
  literals are decimal and exactly representable); the rounded distance the
  geospatial ranker attaches is `ℤ` (result of `Math.round`).
* The trigonometric part of the Haversine computation is embedded over `ℝ`
  (idealised reals in place of IEEE doubles).
* Optional (`?:`) fields are `Option`; `undefined` is `none`.
* The module-level `allRegions` array and the `providerMap` lookup table are
  explicit parameters of each engine function.
* `Array.prototype.sort` (stable, by comparator) is modelled by the stable
  `List.insertionSort`; `Array.prototype.slice(0, limit)` by `List.take` with
  a natural-number limit.
-/

/-- Geographic location data of a region (`GeoLocation` in the source). -/
structure GeoLocation where
  country : String
  countryCode : String
  city : String
  latitude : ℚ
  longitude : ℚ
  continent : String
  deriving DecidableEq

/-- Sustainability and environmental data (`Sustainability` in the source). -/
structure Sustainability where
  renewableEnergyPercent : Option ℚ := none
  carbonNeutral : Option Bool := none
  pueRating : Option ℚ := none
  notes : Option String := none
  deriving DecidableEq

/-- Service availability in a region (`ServiceAvailability` in the source). -/
structure ServiceAvailability where
  compute : Option Bool := none
  kubernetes : Option Bool := none
  serverless : Option Bool := none
  blockStorage : Option Bool := none
  objectStorage : Option Bool := none
  databases : Option Bool := none
  gpu : Option Bool := none
  gpuTypes : Option (List String) := none
  aiMl : Option Bool := none
  additionalServices : Option (List String) := none
  deriving DecidableEq

/-- Sovereignty and operational details (`SovereigntyInfo` in the source). -/
structure SovereigntyInfo where
  operator : Option String := none
  dataResidency : Option String := none
  dataResidencyGuarantee : Option Bool := none
  governmentClassification : Option String := none
  accessRestrictions : Option String := none
  certificationBody : Option String := none
  hostProvider : Option String := none
  notes : Option String := none
  deriving DecidableEq

/-- Network connectivity options (`NetworkConnectivity` in the source). -/
structure NetworkConnectivity where
  directConnect : Option Bool := none
  directConnectName : Option String := none
  internetExchanges : Option (List String) := none
  cloudInterconnect : Option (List String) := none
  deriving DecidableEq

/-- Cloud region definition (`CloudRegion` in the source). -/
structure CloudRegion where
  id : String
  provider : String
  regionCode : String
  displayName : String
  regionType : String
  location : GeoLocation
  availabilityZones : Option ℚ := none
  launchedDate : Option String := none
  status : String
  compliance : Option (List String) := none
  sustainability : Option Sustainability := none
  network : Option NetworkConnectivity := none
  services : Option ServiceAvailability := none
  sovereignty : Option SovereigntyInfo := none
  notes : Option String := none
  deriving DecidableEq

/-- Cloud provider metadata (`CloudProviderInfo` in the source). -/
structure CloudProviderInfo where
  id : String
  name : String
  tier : String
  website : String
  regionDocsUrl : Option String := none
  statusPageUrl : Option String := none
  description : String
  specialization : Option (List String) := none
  deriving DecidableEq

/-- Search/filter criteria for regions (`RegionFilter` in the source). -/
structure RegionFilter where
  providers : Option (List String) := none
  tiers : Option (List String) := none
  regionTypes : Option (List String) := none
  countryCodes : Option (List String) := none
  continents : Option (List String) := none
  compliance : Option (List String) := none
  carbonNeutral : Option Bool := none
  hasGpu : Option Bool := none
  status : Option (List String) := none
  minAvailabilityZones : Option ℚ := none
  dataResidency : Option String := none
  deriving DecidableEq

/-- Nearby region search criteria (`NearbySearch` in the source). -/
structure NearbySearch where
  latitude : ℚ
  longitude : ℚ
  maxDistanceKm : Option ℚ := none
  limit : Option Nat := none
  filter : Option RegionFilter := none

/-- Region with distance information (`RegionWithDistance` in the source). -/
structure RegionWithDistance extends CloudRegion where
  distanceKm : ℤ

/-- The region predicate of `applyFilters`: the body of the arrow function
passed to `regions.filter`.  Each criterion mirrors one early-return guard of
the source, in source order; `providerMap` is the module-level provider
lookup table, passed explicitly. -/
def regionMatches (providerMap : String → Option CloudProviderInfo)
    (filter : RegionFilter) (region : CloudRegion) : Bool :=
  (match filter.providers with
   | some ps => if ps.length > 0 then ps.contains region.provider else true
   | none => true) &&
  (match filter.tiers with
   | some ts =>
     if ts.length > 0 then
       match providerMap region.provider with
       | some providerInfo => ts.contains providerInfo.tier
       | none => false
     else true
   | none => true) &&
  (match filter.countryCodes with
   | some ccs => if ccs.length > 0 then ccs.contains region.location.countryCode else true
   | none => true) &&
  (match filter.continents with
   | some cs => if cs.length > 0 then cs.contains region.location.continent else true
   | none => true) &&
  (match filter.compliance with
   | some certs =>
     if certs.length > 0 then
       match region.compliance with
       | some rc => certs.all (fun cert => rc.contains cert)
       | none => false
     else true
   | none => true) &&
  (match filter.carbonNeutral with
   | some true =>
     (match region.sustainability with
      | some s => s.carbonNeutral.getD false
      | none => false)
   | _ => true) &&
  (match filter.hasGpu with
   | some true =>
     (match region.services with
      | some s => s.gpu.getD false
      | none => false)
   | _ => true) &&
  (match filter.status with
   | some sts => if sts.length > 0 then sts.contains region.status else true
   | none => true) &&
  (match filter.regionTypes with
   | some rts => if rts.length > 0 then rts.contains region.regionType else true
   | none => true) &&
  (match filter.dataResidency with
   | some dr =>
     if dr = "" then true
     else
       match region.sovereignty with
       | some sov =>
         (match sov.dataResidency with
          | some v => decide (v = dr)
          | none => false)
       | none => false
   | none => true) &&
  (match filter.minAvailabilityZones with
   | some minAZ => decide (region.availabilityZones.getD 0 ≥ minAZ)
   | none => true)

/-- Apply filters to a list of regions (`applyFilters` in the source). -/
def applyFilters (providerMap : String → Option CloudProviderInfo)
    (regions : List CloudRegion) (filter : RegionFilter) : List CloudRegion :=
  regions.filter (regionMatches providerMap filter)

/-- List all regions with optional filtering (`listRegions` in the source). -/
def listRegions (providerMap : String → Option CloudProviderInfo)
    (allRegions : List CloudRegion) (filter : Option RegionFilter) : List CloudRegion :=
  match filter with
  | none => allRegions
  | some f => applyFilters providerMap allRegions f

/-- The `RegionFilter` with every criterion absent. -/
def emptyFilter : RegionFilter :=
  { providers := none, tiers := none, regionTypes := none, countryCodes := none,
    continents := none, compliance := none, carbonNeutral := none, hasGpu := none,
    status := none, minAvailabilityZones := none, dataResidency := none }

/-- JS `String.prototype.toLowerCase` (character-wise lowering). -/
def jsToLower (s : String) : String := String.mk (s.data.map Char.toLower)

/-- Check that the first character list starts with the second. -/
def startsWithChars : List Char → List Char → Bool
  | [], _ => true
  | _ :: _, [] => false
  | a :: as, b :: bs => (a == b) && startsWithChars as bs

/-- Check that the first character list occurs contiguously in the second. -/
def occursIn (q : List Char) : List Char → Bool
  | [] => startsWithChars q []
  | a :: rest => startsWithChars q (a :: rest) || occursIn q rest

/-- JS `s.includes(q)`: `q` is a contiguous substring of `s`. -/
def jsIncludes (s q : String) : Bool := occursIn q.data s.data

/-- Search regions by text query (`searchRegions` in the source): the query is
lowercased and matched as a substring of any of five lowercased fields. -/
def searchRegions (providerMap : String → Option CloudProviderInfo)
    (allRegions : List CloudRegion) (query : String)
    (filter : Option RegionFilter) : List CloudRegion :=
  let lowerQuery := jsToLower query
  let regions :=
    match filter with
    | some f => applyFilters providerMap allRegions f
    | none => allRegions
  regions.filter (fun region =>
    jsIncludes (jsToLower region.displayName) lowerQuery ||
    jsIncludes (jsToLower region.regionCode) lowerQuery ||
    jsIncludes (jsToLower region.location.city) lowerQuery ||
    jsIncludes (jsToLower region.location.country) lowerQuery ||
    jsIncludes (jsToLower region.provider) lowerQuery)

/-- Find regions with specific compliance certifications
(`findCompliantRegions` in the source): spread the caller filter and pin its
`compliance` field to the supplied certification list. -/
def findCompliantRegions (providerMap : String → Option CloudProviderInfo)
    (allRegions : List CloudRegion) (certifications : List String)
    (filter : Option RegionFilter) : List CloudRegion :=
  let combinedFilter : RegionFilter :=
    { filter.getD emptyFilter with compliance := some certifications }
  applyFilters providerMap allRegions combinedFilter

/-- Find carbon neutral/sustainable regions (`findSustainableRegions` in the
source): spread the caller filter and pin `carbonNeutral` to `true`. -/
def findSustainableRegions (providerMap : String → Option CloudProviderInfo)
    (allRegions : List CloudRegion) (filter : Option RegionFilter) : List CloudRegion :=
  let combinedFilter : RegionFilter :=
    { filter.getD emptyFilter with carbonNeutral := some true }
  applyFilters providerMap allRegions combinedFilter

/-- JS `Math.atan2 y x` on the reals (quadrant-correcting arc tangent). -/
noncomputable def atan2 (y x : ℝ) : ℝ :=
  if 0 < x then Real.arctan (y / x)
  else if x < 0 then
    (if 0 ≤ y then Real.arctan (y / x) + Real.pi else Real.arctan (y / x) - Real.pi)
  else
    (if 0 < y then Real.pi / 2 else if y < 0 then -(Real.pi / 2) else 0)

/-- Calculate distance between two points using the Haversine formula
(`haversineDistance` in the source); coordinates are the stored decimal
literals (`ℚ`), the computation is over `ℝ`. -/
noncomputable def haversineDistance (lat1 lon1 lat2 lon2 : ℚ) : ℝ :=
  let R : ℝ := 6371
  let dLat : ℝ := ((lat2 : ℝ) - (lat1 : ℝ)) * Real.pi / 180
  let dLon : ℝ := ((lon2 : ℝ) - (lon1 : ℝ)) * Real.pi / 180
  let a : ℝ :=
    Real.sin (dLat / 2) * Real.sin (dLat / 2) +
      Real.cos ((lat1 : ℝ) * Real.pi / 180) * Real.cos ((lat2 : ℝ) * Real.pi / 180) *
        Real.sin (dLon / 2) * Real.sin (dLon / 2)
  let c : ℝ := 2 * atan2 (Real.sqrt a) (Real.sqrt (1 - a))
  R * c

/-- JS `Math.round` (round half up) on the reals. -/
noncomputable def jsRound (x : ℝ) : ℤ := ⌊x + 1 / 2⌋

/-- The ascending-by-distance comparator of the source's
`withDistances.sort((a, b) => a.distanceKm - b.distanceKm)`. -/
abbrev distLE (a b : RegionWithDistance) : Prop := a.distanceKm ≤ b.distanceKm

instance : DecidableRel distLE := fun a b => Int.decLe a.distanceKm b.distanceKm

instance : IsTotal RegionWithDistance distLE := ⟨fun a b => Int.le_total a.distanceKm b.distanceKm⟩

instance : IsTrans RegionWithDistance distLE := ⟨fun _ _ _ h h2 => le_trans h h2⟩

/-- Find regions near a geographic location (`findNearbyRegions` in the
source): optional filtering, rounded Haversine distance annotation, stable
ascending sort by distance, optional inclusive max-distance bound, optional
truncation to the first `limit` entries. -/
noncomputable def findNearbyRegions (providerMap : String → Option CloudProviderInfo)
    (allRegions : List CloudRegion) (search : NearbySearch) : List RegionWithDistance :=
  let regions :=
    match search.filter with
    | some f => applyFilters providerMap allRegions f
    | none => allRegions
  let withDistances : List RegionWithDistance :=
    regions.map (fun region =>
      { toCloudRegion := region,
        distanceKm := jsRound (haversineDistance search.latitude search.longitude
          region.location.latitude region.location.longitude) })
  let sorted := List.insertionSort distLE withDistances
  let result :=
    match search.maxDistanceKm with
    | some maxD => sorted.filter (fun r => decide ((r.distanceKm : ℚ) ≤ maxD))
    | none => sorted
  match search.limit with
  | some n => result.take n
  | none => result

/-- Append a region to the group of key `k`, or open a new group at the end:
the update step of the JS `Map`-based groupings (`grouped.get(key) ?? []`,
push, `grouped.set(key, ...)`), on an insertion-ordered association list. -/
def addToGroups (k : String) (r : CloudRegion) :
    List (String × List CloudRegion) → List (String × List CloudRegion)
  | [] => [(k, [r])]
  | (k2, g) :: rest =>
    if k2 = k then (k2, g ++ [r]) :: rest else (k2, g) :: addToGroups k r rest

/-- Group regions by a string key, iterating the snapshot in order (the
common shape of `getRegionsByProvider` / `ByCountry` / `ByContinent`). -/
def groupRegionsBy (key : CloudRegion → String) (regions : List CloudRegion) :
    List (String × List CloudRegion) :=
  regions.foldl (fun acc r => addToGroups (key r) r acc) []

/-- Get regions grouped by provider (`getRegionsByProvider` in the source). -/
def getRegionsByProvider (regions : List CloudRegion) : List (String × List CloudRegion) :=
  groupRegionsBy (fun r => r.provider) regions

/-- Get regions grouped by country (`getRegionsByCountry` in the source). -/
def getRegionsByCountry (regions : List CloudRegion) : List (String × List CloudRegion) :=
  groupRegionsBy (fun r => r.location.countryCode) regions

/-- Get regions grouped by continent (`getRegionsByContinent` in the source). -/
def getRegionsByContinent (regions : List CloudRegion) : List (String × List CloudRegion) :=
  groupRegionsBy (fun r => r.location.continent) regions

/-- Increment the counter of key `k`, or open a new counter at the end: the
update step of the `byRegionType` record accumulation
(`byRegionType[t] = (byRegionType[t] ?? 0) + 1`). -/
def addToCounts (k : String) : List (String × Nat) → List (String × Nat)
  | [] => [(k, 1)]
  | (k2, n) :: rest =>
    if k2 = k then (k2, n + 1) :: rest else (k2, n) :: addToCounts k rest

/-- The truthiness test of `r.services?.gpu` used by `getStatistics` and the
GPU pinning. -/
def hasGpuService (r : CloudRegion) : Bool :=
  match r.services with
  | some s => s.gpu.getD false
  | none => false

/-- The truthiness test of `r.sustainability?.carbonNeutral` used by
`getStatistics`. -/
def isCarbonNeutral (r : CloudRegion) : Bool :=
  match r.sustainability with
  | some s => s.carbonNeutral.getD false
  | none => false

/-- The summary statistics record returned by `getStatistics`. -/
structure Statistics where
  totalRegions : Nat
  totalProviders : Nat
  byProvider : List (String × Nat)
  byCountry : List (String × Nat)
  byContinent : List (String × Nat)
  byRegionType : List (String × Nat)
  gpuRegions : Nat
  carbonNeutralRegions : Nat

/-- Get summary statistics (`getStatistics` in the source), over the current
snapshot's region and provider arrays. -/
def getStatistics (allRegions : List CloudRegion) (providers : List CloudProviderInfo) :
    Statistics :=
  let byProvider := getRegionsByProvider allRegions
  let byCountry := getRegionsByCountry allRegions
  let byContinent := getRegionsByContinent allRegions
  { totalRegions := allRegions.length
    totalProviders := providers.length
    byProvider := byProvider.map (fun e => (e.1, e.2.length))
    byCountry := byCountry.map (fun e => (e.1, e.2.length))
    byContinent := byContinent.map (fun e => (e.1, e.2.length))
    byRegionType := allRegions.foldl (fun acc r => addToCounts r.regionType acc) []
    gpuRegions := (allRegions.filter (fun r => hasGpuService r)).length
    carbonNeutralRegions := (allRegions.filter (fun r => isCarbonNeutral r)).length }

/-- The composite string key of the by-city grouping
(template literal `city-countryCode` in `listCities`). -/
def cityKey (r : CloudRegion) : String :=
  r.location.city ++ "-" ++ r.location.countryCode

/-- The per-key accumulator value of `listCities` (`country`, insertion-ordered
provider `Set`, running count). -/
structure CityGroup where
  country : String
  providers : List String
  count : Nat
  deriving DecidableEq

/-- The `listCities` update of one region: bump its key's group (adding the
provider to the insertion-ordered `Set`) or open a new group at the end. -/
def addToCities (r : CloudRegion) :
    List (String × CityGroup) → List (String × CityGroup)
  | [] => [(cityKey r, { country := r.location.country, providers := [r.provider], count := 1 })]
  | (k, g) :: rest =>
    if k = cityKey r then
      (k, { country := g.country
            providers := if r.provider ∈ g.providers then g.providers else g.providers ++ [r.provider]
            count := g.count + 1 }) :: rest
    else (k, g) :: addToCities r rest

/-- The populated `cities` map of `listCities`, in insertion order. -/
def cityGroups (regions : List CloudRegion) : List (String × CityGroup) :=
  regions.foldl (fun acc r => addToCities r acc) []

/-- One output entry of `listCities`. -/
structure CityEntry where
  city : String
  country : String
  providers : List String
  regionCount : Nat
  deriving DecidableEq

/-- JS `key.split('-')[0]`: the prefix of the key before its first dash. -/
def splitDashHead (s : String) : String :=
  String.mk (s.data.takeWhile (fun c => c != '-'))

/-- The descending-by-count comparator of the source's
`.sort((a, b) => b.regionCount - a.regionCount)` in `listCities`. -/
abbrev cityGE (a b : CityEntry) : Prop := b.regionCount ≤ a.regionCount

instance : DecidableRel cityGE := fun a b => Nat.decLe b.regionCount a.regionCount

instance : IsTotal CityEntry cityGE := ⟨fun a b => Nat.le_total b.regionCount a.regionCount⟩

instance : IsTrans CityEntry cityGE := ⟨fun _ _ _ h h2 => le_trans h2 h⟩

/-- Get all unique cities with cloud regions (`listCities` in the source):
group by the concatenated `city-countryCode` key, emit the split-off city
name, country, providers and count, and stable-sort descending by count. -/
def listCities (regions : List CloudRegion) : List CityEntry :=
  let entries :=
    (cityGroups regions).map (fun e =>
      { city := splitDashHead e.1
        country := e.2.country
        providers := e.2.providers
        regionCount := e.2.count : CityEntry })
  List.insertionSort cityGE entries

/-- The combined filter described by the compliance-query claim: the caller
filter's criteria taken field by field, with the `compliance` criterion pinned
to the caller-supplied certification set. -/
def pinnedComplianceFilter (filter : Option RegionFilter) (certifications : List String) :
    RegionFilter :=
  { providers := (filter.getD emptyFilter).providers
    tiers := (filter.getD emptyFilter).tiers
    regionTypes := (filter.getD emptyFilter).regionTypes
    countryCodes := (filter.getD emptyFilter).countryCodes
    continents := (filter.getD emptyFilter).continents
    compliance := some certifications
    carbonNeutral := (filter.getD emptyFilter).carbonNeutral
    hasGpu := (filter.getD emptyFilter).hasGpu
    status := (filter.getD emptyFilter).status
    minAvailabilityZones := (filter.getD emptyFilter).minAvailabilityZones
    dataResidency := (filter.getD emptyFilter).dataResidency }

/-- The combined filter described by the sustainability-query claim: the
caller filter's criteria taken field by field, with `carbonNeutral` pinned to
`true`. -/
def pinnedSustainableFilter (filter : Option RegionFilter) : RegionFilter :=
  { providers := (filter.getD emptyFilter).providers
    tiers := (filter.getD emptyFilter).tiers
    regionTypes := (filter.getD emptyFilter).regionTypes
    countryCodes := (filter.getD emptyFilter).countryCodes
    continents := (filter.getD emptyFilter).continents
    compliance := (filter.getD emptyFilter).compliance
    carbonNeutral := some true
    hasGpu := (filter.getD emptyFilter).hasGpu
    status := (filter.getD emptyFilter).status
    minAvailabilityZones := (filter.getD emptyFilter).minAvailabilityZones
    dataResidency := (filter.getD emptyFilter).dataResidency }

/-- Left-to-right duplicate removal keeping the first occurrence of each
element: the order the spec ascribes to the de-duplicated provider list. -/
def dedupFirstSeen {α : Type _} [DecidableEq α] : List α → List α
  | [] => []
  | a :: l => a :: dedupFirstSeen (l.filter (fun b => b ≠ a))
termination_by l => l.length
decreasing_by
  simp only [List.length_cons]
  exact Nat.lt_succ_of_le (List.length_filter_le _ _)

/-- Lookup in an insertion-ordered association list (the value a JS `Map`
holds under key `k`). -/
def findVal {α : Type _} (k : String) : List (String × α) → Option α
  | [] => none
  | (k2, v) :: rest => if k2 = k then some v else findVal k rest

/-- The `listCities` accumulator update applied to one region of an existing
group (the `existing` branch of the source loop). -/
def cityStep (g : CityGroup) (r : CloudRegion) : CityGroup :=
  { country := g.country
    providers := if r.provider ∈ g.providers then g.providers else g.providers ++ [r.provider]
    count := g.count + 1 }

/-- Replay a run of regions of one key through the `listCities` accumulator. -/
def extendGroup (g : CityGroup) (rs : List CloudRegion) : CityGroup :=
  rs.foldl cityStep g

/-- A provider table with no entries (every reference is unresolved). -/
def noProviders : String → Option CloudProviderInfo := fun _ => none

/-- Concrete region A of the geospatial scenario: Germany/Frankfurt at
latitude 50.1, longitude 8.7. -/
def regionFrankfurtA : CloudRegion :=
  { id := "provider1-fra"
    provider := "provider1"
    regionCode := "fra"
    displayName := "Frankfurt Region"
    regionType := "commercial"
    location := { country := "Germany", countryCode := "DE", city := "Frankfurt"
                  latitude := 50.1, longitude := 8.7, continent := "europe" }
    status := "ga" }

/-- Concrete region B of the geospatial scenario: France/Paris at
latitude 48.85, longitude 2.35. -/
def regionParisB : CloudRegion :=
  { id := "provider1-par"
    provider := "provider1"
    regionCode := "par"
    displayName := "Paris Region"
    regionType := "commercial"
    location := { country := "France", countryCode := "FR", city := "Paris"
                  latitude := 48.85, longitude := 2.35, continent := "europe" }
    status := "ga" }

/-- The nearby query of the geospatial scenario: latitude 48.8566, longitude
2.3522, `limit` 1, no other criteria. -/
def nearbyParisSearch : NearbySearch :=
  { latitude := 48.8566, longitude := 2.3522, maxDistanceKm := none
    limit := some 1, filter := none }

/-- A region whose city name contains the `'-'` delimiter that `listCities`
uses for its composite key. -/
def regionHoChiMinh : CloudRegion :=
  { id := "provider2-hcm"
    provider := "provider2"
    regionCode := "hcm"
    displayName := "Ho Chi Minh Region"
    regionType := "commercial"
    location := { country := "Vietnam", countryCode := "VN", city := "Ho-Chi-Minh-City"
                  latitude := 10.8, longitude := 106.6, continent := "asia" }
    status := "ga" }

/-- A dash-free-city region used by concrete instantiations: Paris, provider
`provider1`, with some compliance certifications. -/
def regionParisOne : CloudRegion :=
  { id := "provider1-paris"
    provider := "provider1"
    regionCode := "paris"
    displayName := "Paris One"
    regionType := "commercial"
    location := { country := "France", countryCode := "FR", city := "Paris"
                  latitude := 48.85, longitude := 2.35, continent := "europe" }
    status := "ga"
    compliance := some ["HIPAA", "SOC2", "PCI-DSS"] }

/-- A second dash-free-city region in the same city as `regionParisOne` but
from another provider, with too few certifications. -/
def regionParisTwo : CloudRegion :=
  { id := "provider2-paris"
    provider := "provider2"
    regionCode := "paris2"
    displayName := "Paris Two"
    regionType := "commercial"
    location := { country := "France", countryCode := "FR", city := "Paris"
                  latitude := 48.86, longitude := 2.34, continent := "europe" }
    status := "ga"
    compliance := some ["HIPAA"] }

/-- The accumulator group that a whole key-run of regions produces when the
key is fresh: the first region opens the group, the rest are replayed. -/
def buildGroup : List CloudRegion → Option CityGroup
  | [] => none
  | r0 :: rs =>
    some (extendGroup
      { country := r0.location.country, providers := [r0.provider], count := 1 } rs)

lemma occursIn_nil (l : List Char) : occursIn [] l = true := by
  cases l <;> rfl

lemma jsIncludes_empty_query (s : String) : jsIncludes s "" = true :=
  occursIn_nil s.data

/-- C3: a filter specification with no criterion set (all optional fields
absent) filters to a collection equal to the input, element for element in
the same order; the embedding is pure, so the input is not mutated. -/
theorem applyFilters_no_criteria_identity (pm : String → Option CloudProviderInfo)
    (regions : List CloudRegion) (f : RegionFilter)
    (h1 : f.providers = none) (h2 : f.tiers = none) (h3 : f.regionTypes = none)
    (h4 : f.countryCodes = none) (h5 : f.continents = none) (h6 : f.compliance = none)
    (h7 : f.carbonNeutral = none) (h8 : f.hasGpu = none) (h9 : f.status = none)
    (h10 : f.minAvailabilityZones = none) (h11 : f.dataResidency = none) :
    applyFilters pm regions f = regions := by
  unfold applyFilters
  refine List.filter_eq_self.mpr (fun r _ => ?_)
  simp [regionMatches, h1, h2, h3, h4, h5, h6, h7, h8, h9, h10, h11]

/-- Witness for C3 at the all-absent filter and a one-region collection. -/
theorem applyFilters_no_criteria_identity_witness :
    emptyFilter.providers = none ∧ emptyFilter.tiers = none ∧
      applyFilters noProviders [regionParisOne] emptyFilter = [regionParisOne] :=
  ⟨rfl, rfl,
    applyFilters_no_criteria_identity noProviders [regionParisOne] emptyFilter
      rfl rfl rfl rfl rfl rfl rfl rfl rfl rfl rfl⟩

/-- C8: an empty criterion list, or a boolean criterion supplied as `false`,
imposes no constraint: filtering is the same as with the criterion absent,
for each of the seven list criteria and the two boolean criteria. -/
theorem applyFilters_vacuous_criteria (pm : String → Option CloudProviderInfo)
    (regions : List CloudRegion) (f : RegionFilter) :
    (applyFilters pm regions { f with providers := some [] }
        = applyFilters pm regions { f with providers := none })
  ∧ (applyFilters pm regions { f with tiers := some [] }
        = applyFilters pm regions { f with tiers := none })
  ∧ (applyFilters pm regions { f with countryCodes := some [] }
        = applyFilters pm regions { f with countryCodes := none })
  ∧ (applyFilters pm regions { f with continents := some [] }
        = applyFilters pm regions { f with continents := none })
  ∧ (applyFilters pm regions { f with compliance := some [] }
        = applyFilters pm regions { f with compliance := none })
  ∧ (applyFilters pm regions { f with status := some [] }
        = applyFilters pm regions { f with status := none })
  ∧ (applyFilters pm regions { f with regionTypes := some [] }
        = applyFilters pm regions { f with regionTypes := none })
  ∧ (applyFilters pm regions { f with carbonNeutral := some false }
        = applyFilters pm regions { f with carbonNeutral := none })
  ∧ (applyFilters pm regions { f with hasGpu := some false }
        = applyFilters pm regions { f with hasGpu := none }) := by
  refine ⟨?_, ?_, ?_, ?_, ?_, ?_, ?_, ?_, ?_⟩ <;>
  · unfold applyFilters
    refine List.filter_congr (fun r _ => ?_)
    simp [regionMatches]

/-- C2: with a non-empty compliance criterion, every region in the filtered
result carries a certification list containing every required certification. -/
theorem applyFilters_compliance_superset (pm : String → Option CloudProviderInfo)
    (regions : List CloudRegion) (f : RegionFilter) (certs : List String)
    (hc : f.compliance = some certs) (hne : certs ≠ []) :
    ∀ r ∈ applyFilters pm regions f,
      ∃ rc, r.compliance = some rc ∧ ∀ cert ∈ certs, cert ∈ rc := by
  intro r hr
  have hm : regionMatches pm f r = true := (List.mem_filter.mp hr).2
  unfold regionMatches at hm
  rw [hc] at hm
  simp only [Bool.and_eq_true] at hm
  have hcomp := hm.1.1.1.1.1.1.2
  rw [if_pos (List.length_pos.mpr hne)] at hcomp
  cases hrc : r.compliance with
  | none =>
    rw [hrc] at hcomp
    exact absurd hcomp (by simp)
  | some rc =>
    rw [hrc] at hcomp
    refine ⟨rc, rfl, fun cert hcert => ?_⟩
    have := List.all_eq_true.mp hcomp cert hcert
    simpa [List.contains] using this

/-- Witness for C2: the filter requiring HIPAA and SOC2 over a two-region
collection of which only the first qualifies. -/
theorem applyFilters_compliance_superset_witness :
    ({ compliance := some ["HIPAA", "SOC2"] } : RegionFilter).compliance
        = some ["HIPAA", "SOC2"]
    ∧ (["HIPAA", "SOC2"] : List String) ≠ []
    ∧ ∀ r ∈ applyFilters noProviders [regionParisOne, regionParisTwo]
        { compliance := some ["HIPAA", "SOC2"] },
        ∃ rc, r.compliance = some rc ∧ ∀ cert ∈ (["HIPAA", "SOC2"] : List String), cert ∈ rc :=
  ⟨rfl, by decide,
    applyFilters_compliance_superset noProviders [regionParisOne, regionParisTwo]
      { compliance := some ["HIPAA", "SOC2"] } ["HIPAA", "SOC2"] rfl (by decide)⟩

/-- C6: with a non-empty provider-tier criterion, a region whose provider
identifier does not resolve in the provider table is excluded (non-match,
not an error). -/
theorem applyFilters_unresolved_tier_excluded (pm : String → Option CloudProviderInfo)
    (regions : List CloudRegion) (f : RegionFilter) (ts : List String)
    (ht : f.tiers = some ts) (hne : ts ≠ []) (r : CloudRegion)
    (hpm : pm r.provider = none) :
    r ∉ applyFilters pm regions f := by
  intro hr
  have hm : regionMatches pm f r = true := (List.mem_filter.mp hr).2
  unfold regionMatches at hm
  rw [ht] at hm
  simp only [Bool.and_eq_true] at hm
  have htier := hm.1.1.1.1.1.1.1.1.1.2
  rw [if_pos (List.length_pos.mpr hne), hpm] at htier
  exact absurd htier (by simp)

/-- Witness for C6: an empty provider table excludes a region from any
tier-filtered result. -/
theorem applyFilters_unresolved_tier_excluded_witness :
    ({ tiers := some ["hyperscaler"] } : RegionFilter).tiers = some ["hyperscaler"]
    ∧ (["hyperscaler"] : List String) ≠ []
    ∧ noProviders regionParisOne.provider = none
    ∧ regionParisOne ∉ applyFilters noProviders [regionParisOne]
        { tiers := some ["hyperscaler"] } :=
  ⟨rfl, by decide, rfl,
    applyFilters_unresolved_tier_excluded noProviders [regionParisOne]
      { tiers := some ["hyperscaler"] } ["hyperscaler"] rfl (by decide)
      regionParisOne rfl⟩

/-- C9: the empty query lowercases to the empty string, which is a substring
of every field, so text search with the empty query returns exactly the
(optionally pre-filtered) candidate set in order. -/
theorem searchRegions_empty_query_id (pm : String → Option CloudProviderInfo)
    (regions : List CloudRegion) :
    (∀ f, searchRegions pm regions "" (some f) = applyFilters pm regions f)
    ∧ searchRegions pm regions "" none = regions := by
  have hlow : jsToLower "" = "" := rfl
  constructor
  · intro f
    unfold searchRegions
    rw [hlow]
    exact List.filter_eq_self.mpr (fun r _ => by simp [jsIncludes_empty_query])
  · unfold searchRegions
    rw [hlow]
    exact List.filter_eq_self.mpr (fun r _ => by simp [jsIncludes_empty_query])

/-- C7: the compliance query equals the generic filter with the caller
filter's criteria plus a pinned compliance criterion, and the sustainability
query equals the generic filter with a pinned `carbonNeutral = true`. -/
theorem specialized_queries_are_pinned_filters (pm : String → Option CloudProviderInfo)
    (regions : List CloudRegion) :
    (∀ certs f, findCompliantRegions pm regions certs f
        = applyFilters pm regions (pinnedComplianceFilter f certs))
    ∧ (∀ f, findSustainableRegions pm regions f
        = applyFilters pm regions (pinnedSustainableFilter f)) :=
  ⟨fun _ _ => rfl, fun _ => rfl⟩

lemma addToGroups_sum (k : String) (r : CloudRegion)
    (acc : List (String × List CloudRegion)) :
    ((addToGroups k r acc).map (fun e => e.2.length)).sum
      = (acc.map (fun e => e.2.length)).sum + 1 := by
  induction acc with
  | nil => simp [addToGroups]
  | cons e rest ih =>
    obtain ⟨k2, g⟩ := e
    by_cases h : k2 = k
    · simp [addToGroups, h]
      omega
    · simp [addToGroups, h]
      omega

lemma groupFold_sum (key : CloudRegion → String) (regions : List CloudRegion) :
    ∀ acc : List (String × List CloudRegion),
      ((regions.foldl (fun acc r => addToGroups (key r) r acc) acc).map
          (fun e => e.2.length)).sum
        = (acc.map (fun e => e.2.length)).sum + regions.length := by
  induction regions with
  | nil => intro acc; simp
  | cons r rest ih =>
    intro acc
    simp only [List.foldl_cons]
    rw [ih (addToGroups (key r) r acc), addToGroups_sum]
    simp only [List.length_cons]
    omega

lemma addToCounts_sum (k : String) (acc : List (String × Nat)) :
    ((addToCounts k acc).map (fun e => e.2)).sum
      = (acc.map (fun e => e.2)).sum + 1 := by
  induction acc with
  | nil => simp [addToCounts]
  | cons e rest ih =>
    obtain ⟨k2, n⟩ := e
    by_cases h : k2 = k
    · simp [addToCounts, h]
      omega
    · simp [addToCounts, h]
      omega

lemma countFold_sum (key : CloudRegion → String) (regions : List CloudRegion) :
    ∀ acc : List (String × Nat),
      ((regions.foldl (fun acc r => addToCounts (key r) acc) acc).map
          (fun e => e.2)).sum
        = (acc.map (fun e => e.2)).sum + regions.length := by
  induction regions with
  | nil => intro acc; simp
  | cons r rest ih =>
    intro acc
    simp only [List.foldl_cons]
    rw [ih (addToCounts (key r) acc), addToCounts_sum]
    simp only [List.length_cons]
    omega

/-- C10: the statistics record is internally consistent: each of the four
groupings' counts sums to the total region count, and the GPU and
carbon-neutral counts are at most the total. -/
theorem getStatistics_consistent (regions : List CloudRegion)
    (providers : List CloudProviderInfo) :
    (((getStatistics regions providers).byProvider.map (fun e => e.2)).sum
        = (getStatistics regions providers).totalRegions)
  ∧ (((getStatistics regions providers).byCountry.map (fun e => e.2)).sum
        = (getStatistics regions providers).totalRegions)
  ∧ (((getStatistics regions providers).byContinent.map (fun e => e.2)).sum
        = (getStatistics regions providers).totalRegions)
  ∧ (((getStatistics regions providers).byRegionType.map (fun e => e.2)).sum
        = (getStatistics regions providers).totalRegions)
  ∧ (getStatistics regions providers).gpuRegions
        ≤ (getStatistics regions providers).totalRegions
  ∧ (getStatistics regions providers).carbonNeutralRegions
        ≤ (getStatistics regions providers).totalRegions := by
  refine ⟨?_, ?_, ?_, ?_, ?_, ?_⟩
  · simp only [getStatistics, getRegionsByProvider, groupRegionsBy, List.map_map]
    simpa [Function.comp] using groupFold_sum (fun r => r.provider) regions []
  · simp only [getStatistics, getRegionsByCountry, groupRegionsBy, List.map_map]
    simpa [Function.comp] using groupFold_sum (fun r => r.location.countryCode) regions []
  · simp only [getStatistics, getRegionsByContinent, groupRegionsBy, List.map_map]
    simpa [Function.comp] using groupFold_sum (fun r => r.location.continent) regions []
  · simpa [getStatistics] using countFold_sum (fun r => r.regionType) regions []
  · simpa [getStatistics] using List.length_filter_le (fun r => hasGpuService r) regions
  · simpa [getStatistics] using List.length_filter_le (fun r => isCarbonNeutral r) regions

/-- C1: every nearby-query result is sorted non-decreasing by the rounded
distance field; under a max-distance bound every returned entry's distance is
at most the bound, and the bounded query keeps exactly the entries of the
unbounded query whose distance is at most the bound (equality included);
under a limit the result is the first `limit` entries of the sorted, bounded
sequence (the same query without its limit). -/
theorem findNearbyRegions_sorted_bounded_limited (pm : String → Option CloudProviderInfo)
    (allRegions : List CloudRegion) (s : NearbySearch) :
    (findNearbyRegions pm allRegions s).Pairwise (fun a b => a.distanceKm ≤ b.distanceKm)
    ∧ (∀ m, s.maxDistanceKm = some m →
        ∀ e ∈ findNearbyRegions pm allRegions s, (e.distanceKm : ℚ) ≤ m)
    ∧ (∀ m, s.limit = none → s.maxDistanceKm = some m →
        findNearbyRegions pm allRegions s =
          (findNearbyRegions pm allRegions { s with maxDistanceKm := none }).filter
            (fun e => decide ((e.distanceKm : ℚ) ≤ m)))
    ∧ (∀ n, s.limit = some n →
        findNearbyRegions pm allRegions s =
          (findNearbyRegions pm allRegions { s with limit := none }).take n) := by
  obtain ⟨lat, lon, maxD, lim, flt⟩ := s
  have hsorted :
      ∀ ds : List RegionWithDistance,
        (List.insertionSort distLE ds).Pairwise (fun a b => a.distanceKm ≤ b.distanceKm) :=
    fun ds => List.sorted_insertionSort distLE ds
  cases maxD with
  | none =>
    cases lim with
    | none =>
      refine ⟨hsorted _, ?_, ?_, ?_⟩
      · intro m hm; exact absurd hm (by simp)
      · intro m _ hm; exact absurd hm (by simp)
      · intro n hn; exact absurd hn (by simp)
    | some n =>
      refine ⟨List.Pairwise.sublist (List.take_sublist n _) (hsorted _), ?_, ?_, ?_⟩
      · intro m hm; exact absurd hm (by simp)
      · intro m hl; exact absurd hl (by simp)
      · intro n2 hn
        have : n2 = n := by simpa using hn.symm
        subst this
        rfl
  | some m0 =>
    cases lim with
    | none =>
      refine ⟨List.Pairwise.filter _ (hsorted _), ?_, ?_, ?_⟩
      · intro m hm e he
        have hm0 : m = m0 := by simpa using hm.symm
        subst hm0
        have := (List.mem_filter.mp he).2
        simpa using this
      · intro m _ hm
        have hm0 : m = m0 := by simpa using hm.symm
        subst hm0
        rfl
      · intro n hn; exact absurd hn (by simp)
    | some n =>
      refine ⟨List.Pairwise.sublist (List.take_sublist n _)
          (List.Pairwise.filter _ (hsorted _)), ?_, ?_, ?_⟩
      · intro m hm e he
        have hm0 : m = m0 := by simpa using hm.symm
        subst hm0
        have he2 := (List.take_sublist n _).subset he
        have := (List.mem_filter.mp he2).2
        simpa using this
      · intro m hl; exact absurd hl (by simp)
      · intro n2 hn
        have : n2 = n := by simpa using hn.symm
        subst this
        rfl

/-- Witness for C1 at the two-region snapshot with a bound of 500 km and a
limit of 1. -/
theorem findNearbyRegions_sorted_bounded_limited_witness :
    (∀ e ∈ findNearbyRegions noProviders [regionFrankfurtA, regionParisB]
        { latitude := 48.8566, longitude := 2.3522, maxDistanceKm := some 500
          limit := some 1, filter := none },
        (e.distanceKm : ℚ) ≤ 500)
    ∧ findNearbyRegions noProviders [regionFrankfurtA, regionParisB]
        { latitude := 48.8566, longitude := 2.3522, maxDistanceKm := some 500
          limit := some 1, filter := none }
      = (findNearbyRegions noProviders [regionFrankfurtA, regionParisB]
          { latitude := 48.8566, longitude := 2.3522, maxDistanceKm := some 500
            limit := none, filter := none }).take 1 :=
  ⟨(findNearbyRegions_sorted_bounded_limited noProviders [regionFrankfurtA, regionParisB]
      _).2.1 500 rfl,
    (findNearbyRegions_sorted_bounded_limited noProviders [regionFrankfurtA, regionParisB]
      _).2.2.2 1 rfl⟩

lemma findVal_addToCities (r : CloudRegion) (acc : List (String × CityGroup)) (k : String) :
    findVal k (addToCities r acc)
      = if cityKey r = k then
          some (match findVal k acc with
                | some g => cityStep g r
                | none => { country := r.location.country, providers := [r.provider], count := 1 })
        else findVal k acc := by
  induction acc with
  | nil =>
    by_cases h : cityKey r = k <;> simp [addToCities, findVal, h]
  | cons e rest ih =>
    obtain ⟨k2, g2⟩ := e
    simp only [addToCities]
    by_cases h1 : k2 = cityKey r
    · rw [if_pos h1]
      by_cases h2 : k2 = k
      · have hrk : cityKey r = k := h1 ▸ h2
        simp [findVal, h2, hrk, cityStep]
      · have hrk : ¬ (cityKey r = k) := fun hc => h2 (h1.trans hc)
        simp [findVal, h2, hrk]
    · rw [if_neg h1]
      by_cases h2 : k2 = k
      · have hrk : ¬ (cityKey r = k) := fun hc => h1 (h2.trans hc.symm)
        simp [findVal, h2, hrk]
      · simp [findVal, h2, ih]

lemma findVal_cityFold (regions : List CloudRegion) :
    ∀ (acc : List (String × CityGroup)) (k : String),
      findVal k (regions.foldl (fun acc r => addToCities r acc) acc)
        = match findVal k acc with
          | some g => some (extendGroup g (regions.filter (fun r => cityKey r = k)))
          | none => buildGroup (regions.filter (fun r => cityKey r = k)) := by
  induction regions with
  | nil =>
    intro acc k
    cases h : findVal k acc <;> simp [extendGroup, buildGroup, h]
  | cons r rest ih =>
    intro acc k
    simp only [List.foldl_cons]
    rw [ih (addToCities r acc) k, findVal_addToCities]
    by_cases hk : cityKey r = k
    · rw [if_pos hk]
      rw [List.filter_cons_of_pos (by simpa using hk)]
      cases h : findVal k acc with
      | some g => simp [extendGroup, buildGroup]
      | none => simp [extendGroup, buildGroup]
    · rw [if_neg hk]
      rw [List.filter_cons_of_neg (by simpa using hk)]

lemma filter_not_mem_append {α : Type _} [DecidableEq α] (l ps : List α) (p : α) :
    l.filter (fun b => b ∉ ps ++ [p]) = (l.filter (fun b => b ∉ ps)).filter (fun b => b ≠ p) := by
  rw [List.filter_filter]
  refine List.filter_congr (fun b _ => ?_)
  by_cases h1 : b ∈ ps <;> by_cases h2 : b = p <;> simp [h1, h2]

lemma extendGroup_spec (rs : List CloudRegion) :
    ∀ (c : String) (ps : List String) (n : Nat),
      extendGroup { country := c, providers := ps, count := n } rs
        = { country := c
            providers := ps ++ dedupFirstSeen ((rs.map (fun r => r.provider)).filter
              (fun p => p ∉ ps))
            count := n + rs.length } := by
  induction rs with
  | nil =>
    intro c ps n
    simp [extendGroup, dedupFirstSeen]
  | cons r rest ih =>
    intro c ps n
    show extendGroup (cityStep { country := c, providers := ps, count := n } r) rest = _
    by_cases hp : r.provider ∈ ps
    · have hstep : cityStep { country := c, providers := ps, count := n } r
          = { country := c, providers := ps, count := n + 1 } := by
        simp [cityStep, hp]
      rw [hstep, ih]
      have hfil : ((r :: rest).map (fun r2 => r2.provider)).filter (fun p => p ∉ ps)
          = (rest.map (fun r2 => r2.provider)).filter (fun p => p ∉ ps) := by
        rw [List.map_cons, List.filter_cons_of_neg (by simpa using hp)]
      rw [hfil]
      simp only [List.length_cons]
      congr 1
      omega
    · have hstep : cityStep { country := c, providers := ps, count := n } r
          = { country := c, providers := ps ++ [r.provider], count := n + 1 } := by
        simp [cityStep, hp]
      rw [hstep, ih]
      have hfil : ((r :: rest).map (fun r2 => r2.provider)).filter (fun p => p ∉ ps)
          = r.provider :: (rest.map (fun r2 => r2.provider)).filter (fun p => p ∉ ps) := by
        rw [List.map_cons, List.filter_cons_of_pos (by simpa using hp)]
      rw [hfil, dedupFirstSeen, filter_not_mem_append]
      simp only [List.length_cons, List.append_assoc, List.singleton_append]
      congr 1
      omega

lemma buildGroup_cons (r0 : CloudRegion) (rs : List CloudRegion) :
    buildGroup (r0 :: rs)
      = some { country := r0.location.country
               providers := dedupFirstSeen ((r0 :: rs).map (fun r => r.provider))
               count := (r0 :: rs).length } := by
  show some (extendGroup _ rs) = _
  rw [extendGroup_spec]
  have hfil : (rs.map (fun r => r.provider)).filter (fun p => p ∉ [r0.provider])
      = (rs.map (fun r => r.provider)).filter (fun p => p ≠ r0.provider) :=
    List.filter_congr (fun b _ => by simp)
  rw [List.map_cons, dedupFirstSeen, hfil]
  simp [List.length_cons, Nat.add_comm]

lemma keys_addToCities (r : CloudRegion) (acc : List (String × CityGroup)) :
    (addToCities r acc).map (fun e => e.1)
      = if cityKey r ∈ acc.map (fun e => e.1) then acc.map (fun e => e.1)
        else acc.map (fun e => e.1) ++ [cityKey r] := by
  induction acc with
  | nil => simp [addToCities]
  | cons e rest ih =>
    obtain ⟨k2, g2⟩ := e
    by_cases h : k2 = cityKey r
    · subst h
      simp [addToCities]
    · have hne : ¬ (cityKey r = k2) := fun h2 => h h2.symm
      by_cases h2 : cityKey r ∈ rest.map (fun e => e.1) <;>
        simp [addToCities, h, ih, h2, hne]

lemma keys_cityFold (regions : List CloudRegion) :
    ∀ acc : List (String × CityGroup),
      (regions.foldl (fun acc r => addToCities r acc) acc).map (fun e => e.1)
        = acc.map (fun e => e.1)
            ++ dedupFirstSeen ((regions.map cityKey).filter
                  (fun k => k ∉ acc.map (fun e => e.1))) := by
  induction regions with
  | nil =>
    intro acc
    simp [dedupFirstSeen]
  | cons r rest ih =>
    intro acc
    simp only [List.foldl_cons, List.map_cons]
    rw [ih (addToCities r acc), keys_addToCities]
    by_cases h : cityKey r ∈ acc.map (fun e => e.1)
    · rw [if_pos h, List.filter_cons_of_neg (by simpa using h)]
    · rw [if_neg h, List.filter_cons_of_pos (by simpa using h), dedupFirstSeen,
        filter_not_mem_append]
      simp [List.append_assoc]

lemma dedupFirstSeen_subset {α : Type _} [DecidableEq α] (l : List α) :
    ∀ x ∈ dedupFirstSeen l, x ∈ l := by
  induction l using dedupFirstSeen.induct with
  | case1 => simp [dedupFirstSeen]
  | case2 a l ih =>
    intro x hx
    rw [dedupFirstSeen] at hx
    simp only [List.mem_cons] at hx
    rcases hx with h1 | h1
    · simp [h1]
    · exact List.mem_cons_of_mem _ (List.mem_of_mem_filter (ih x h1))

lemma dedupFirstSeen_nodup {α : Type _} [DecidableEq α] (l : List α) :
    (dedupFirstSeen l).Nodup := by
  induction l using dedupFirstSeen.induct with
  | case1 =>
    rw [dedupFirstSeen]
    exact List.nodup_nil
  | case2 a l ih =>
    rw [dedupFirstSeen]
    refine List.nodup_cons.mpr ⟨fun hmem => ?_, ih⟩
    have h2 := List.of_mem_filter (dedupFirstSeen_subset _ a hmem)
    simp at h2

lemma dedupFirstSeen_length_congr {α β γ : Type _} [DecidableEq β] [DecidableEq γ]
    (f : α → β) (g : α → γ) :
    ∀ (l : List α), (∀ x ∈ l, ∀ y ∈ l, (f x = f y ↔ g x = g y)) →
      (dedupFirstSeen (l.map f)).length = (dedupFirstSeen (l.map g)).length := by
  suffices H : ∀ (n : Nat) (l : List α), l.length ≤ n →
      (∀ x ∈ l, ∀ y ∈ l, (f x = f y ↔ g x = g y)) →
      (dedupFirstSeen (l.map f)).length = (dedupFirstSeen (l.map g)).length by
    intro l h
    exact H l.length l le_rfl h
  intro n
  induction n with
  | zero =>
    intro l hlen _
    rw [List.length_eq_zero.mp (Nat.le_zero.mp hlen)]
    simp [dedupFirstSeen]
  | succ n ihn =>
    intro l hlen hyp
    cases l with
    | nil => simp [dedupFirstSeen]
    | cons a l2 =>
      rw [List.map_cons, List.map_cons, dedupFirstSeen, dedupFirstSeen]
      simp only [List.length_cons]
      have hf : (l2.map f).filter (fun b => b ≠ f a)
          = (l2.filter (fun x => f x ≠ f a)).map f := by
        rw [List.filter_map]
        rfl
      have hg : (l2.map g).filter (fun b => b ≠ g a)
          = (l2.filter (fun x => g x ≠ g a)).map g := by
        rw [List.filter_map]
        rfl
      have hfg : l2.filter (fun x => f x ≠ f a) = l2.filter (fun x => g x ≠ g a) :=
        List.filter_congr (fun x hx => by
          have := hyp x (List.mem_cons_of_mem _ hx) a (List.mem_cons_self _ _)
          simp [this])
      rw [hf, hg, hfg]
      have hsub : ∀ x ∈ l2.filter (fun x => g x ≠ g a), x ∈ l2 :=
        fun x hx => List.mem_of_mem_filter hx
      refine congrArg Nat.succ (ihn _ ?_ ?_)
      · exact le_trans (List.length_filter_le _ _) (by simpa using hlen)
      · intro x hx y hy
        exact hyp x (List.mem_cons_of_mem _ (hsub x hx)) y (List.mem_cons_of_mem _ (hsub y hy))

lemma append_sep_inj (c : Char) :
    ∀ (l1 l2 m1 m2 : List Char), c ∉ l1 → c ∉ l2 →
      l1 ++ c :: m1 = l2 ++ c :: m2 → l1 = l2 ∧ m1 = m2 := by
  intro l1
  induction l1 with
  | nil =>
    intro l2 m1 m2 _ h2 he
    cases l2 with
    | nil => simpa using he
    | cons b bs =>
      simp only [List.nil_append, List.cons_append, List.cons.injEq] at he
      rw [he.1] at h2
      simp at h2
  | cons a as ih =>
    intro l2 m1 m2 h1 h2 he
    cases l2 with
    | nil =>
      simp only [List.cons_append, List.nil_append, List.cons.injEq] at he
      rw [he.1] at h1
      simp at h1
    | cons b bs =>
      simp only [List.cons_append, List.cons.injEq] at he
      obtain ⟨hab, he2⟩ := he
      have h1b : c ∉ as := fun h => h1 (List.mem_cons_of_mem _ h)
      have h2b : c ∉ bs := fun h => h2 (List.mem_cons_of_mem _ h)
      obtain ⟨hl, hm⟩ := ih bs m1 m2 h1b h2b he2
      exact ⟨by rw [hab, hl], hm⟩

lemma cityKey_data (r : CloudRegion) :
    (cityKey r).data = r.location.city.data ++ '-' :: r.location.countryCode.data := by
  show (r.location.city ++ "-" ++ r.location.countryCode).data = _
  rw [String.data_append, String.data_append, List.append_assoc]
  rfl

lemma cityKey_eq_iff (r1 r2 : CloudRegion)
    (h1 : ('-' : Char) ∉ r1.location.city.data)
    (h2 : ('-' : Char) ∉ r2.location.city.data) :
    cityKey r1 = cityKey r2
      ↔ (r1.location.city = r2.location.city
          ∧ r1.location.countryCode = r2.location.countryCode) := by
  constructor
  · intro he
    have hdata := congrArg String.data he
    rw [cityKey_data, cityKey_data] at hdata
    obtain ⟨ha, hb⟩ := append_sep_inj '-' _ _ _ _ h1 h2 hdata
    exact ⟨String.ext ha, String.ext hb⟩
  · intro h
    simp [cityKey, h.1, h.2]

lemma takeWhile_append_cons (p : Char → Bool) :
    ∀ (l m : List Char) (c : Char), (∀ x ∈ l, p x = true) → p c = false →
      (l ++ c :: m).takeWhile p = l := by
  intro l
  induction l with
  | nil =>
    intro m c _ hc
    simp [List.takeWhile_cons, hc]
  | cons a as ih =>
    intro m c hl hc
    have ha : p a = true := hl a (List.mem_cons_self _ _)
    simp only [List.cons_append, List.takeWhile_cons, ha, if_true]
    rw [ih m c (fun x hx => hl x (List.mem_cons_of_mem _ hx)) hc]

lemma splitDashHead_cityKey (r : CloudRegion) (h : ('-' : Char) ∉ r.location.city.data) :
    splitDashHead (cityKey r) = r.location.city := by
  show String.mk (((cityKey r).data).takeWhile (fun c => c != '-')) = _
  rw [cityKey_data, takeWhile_append_cons _ _ _ _ ?_ ?_]
  · intro x hx
    have hxne : x ≠ '-' := fun he => h (he ▸ hx)
    simpa using hxne
  · simp

lemma findVal_some_mem {α : Type _} (k : String) (l : List (String × α)) (v : α)
    (h : findVal k l = some v) : (k, v) ∈ l := by
  induction l with
  | nil => simp [findVal] at h
  | cons e rest ih =>
    obtain ⟨k2, v2⟩ := e
    by_cases h2 : k2 = k
    · subst h2
      rw [findVal, if_pos rfl] at h
      injection h with hv
      rw [← hv]
      exact List.mem_cons_self _ _
    · rw [findVal, if_neg h2] at h
      exact List.mem_cons_of_mem _ (ih h)

lemma findVal_of_mem_nodup {α : Type _} (l : List (String × α)) (k : String) (v : α)
    (hnd : (l.map (fun e => e.1)).Nodup) (hm : (k, v) ∈ l) : findVal k l = some v := by
  induction l with
  | nil => simp at hm
  | cons e rest ih =>
    obtain ⟨k2, v2⟩ := e
    simp only [List.map_cons, List.nodup_cons] at hnd
    rcases List.mem_cons.mp hm with he | hm2
    · rw [Prod.mk.injEq] at he
      obtain ⟨hk, hv⟩ := he
      simp [findVal, hk.symm, hv.symm]
    · have hk2 : ¬ (k2 = k) := by
        intro hkk
        subst hkk
        exact hnd.1 (by
          have := List.mem_map_of_mem (fun e => e.1) hm2
          simpa using this)
      simp only [findVal, if_neg hk2]
      exact ih hnd.2 hm2

/-- C5 (amended): over datasets in which no city name contains the composite
key's `'-'` delimiter, `listCities` groups by the (city, country code) pair:
entries are sorted descending by region count, there is one entry per
distinct (city, country code) pair, every region is counted in an entry whose
`city` equals its city name, whose providers are the first-seen-deduplicated
providers of its pair group, and whose count is that group's size, and every
entry's city and country name come from a region of its group. -/
theorem listCities_groups_by_city_and_country (regions : List CloudRegion)
    (hdash : ∀ r ∈ regions, ('-' : Char) ∉ r.location.city.data) :
    (listCities regions).Pairwise (fun a b => b.regionCount ≤ a.regionCount)
    ∧ (listCities regions).length
        = (dedupFirstSeen (regions.map
            (fun r => (r.location.city, r.location.countryCode)))).length
    ∧ (∀ r ∈ regions, ∃ e ∈ listCities regions,
        e.city = r.location.city
        ∧ e.providers = dedupFirstSeen ((regions.filter (fun r2 =>
            r2.location.city = r.location.city
            ∧ r2.location.countryCode = r.location.countryCode)).map
              (fun r2 => r2.provider))
        ∧ e.regionCount = (regions.filter (fun r2 =>
            r2.location.city = r.location.city
            ∧ r2.location.countryCode = r.location.countryCode)).length)
    ∧ (∀ e ∈ listCities regions, ∃ r ∈ regions,
        e.city = r.location.city ∧ e.country = r.location.country) := by
  have hkeys : (cityGroups regions).map (fun e => e.1)
      = dedupFirstSeen (regions.map cityKey) := by
    have h := keys_cityFold regions []
    simpa [cityGroups] using h
  have hnodup : ((cityGroups regions).map (fun e => e.1)).Nodup := by
    rw [hkeys]
    exact dedupFirstSeen_nodup _
  have hlookup : ∀ k, findVal k (cityGroups regions)
      = buildGroup (regions.filter (fun r => cityKey r = k)) := by
    intro k
    have h := findVal_cityFold regions [] k
    simpa [cityGroups, findVal] using h
  refine ⟨?_, ?_, ?_, ?_⟩
  · exact List.sorted_insertionSort cityGE _
  · have h1 : (listCities regions).length = (cityGroups regions).length := by
      show (List.insertionSort cityGE _).length = _
      rw [(List.perm_insertionSort cityGE _).length_eq, List.length_map]
    have h2 : (cityGroups regions).length
        = (dedupFirstSeen (regions.map cityKey)).length := by
      conv_lhs => rw [← List.length_map (cityGroups regions) (fun e => e.1)]
      rw [hkeys]
    have h3 := dedupFirstSeen_length_congr cityKey
      (fun r => (r.location.city, r.location.countryCode)) regions
      (fun x hx y hy => by
        rw [cityKey_eq_iff x y (hdash x hx) (hdash y hy)]
        simp [Prod.ext_iff])
    rw [h1, h2, h3]
  · intro r hr
    have hpair : regions.filter (fun r2 => cityKey r2 = cityKey r)
        = regions.filter (fun r2 => r2.location.city = r.location.city
            ∧ r2.location.countryCode = r.location.countryCode) :=
      List.filter_congr (fun r2 hr2 => by
        simp [cityKey_eq_iff r2 r (hdash r2 hr2) (hdash r hr)])
    have hrk : r ∈ regions.filter (fun r2 => cityKey r2 = cityKey r) :=
      List.mem_filter.mpr ⟨hr, by simp⟩
    cases hgrp : regions.filter (fun r2 => cityKey r2 = cityKey r) with
    | nil =>
      rw [hgrp] at hrk
      simp at hrk
    | cons r0 rs =>
      have hsome : findVal (cityKey r) (cityGroups regions)
          = some { country := r0.location.country
                   providers := dedupFirstSeen ((r0 :: rs).map (fun r2 => r2.provider))
                   count := (r0 :: rs).length } := by
        rw [hlookup, hgrp, buildGroup_cons]
      have hmemg : (cityKey r,
          ({ country := r0.location.country
             providers := dedupFirstSeen ((r0 :: rs).map (fun r2 => r2.provider))
             count := (r0 :: rs).length } : CityGroup)) ∈ cityGroups regions :=
        findVal_some_mem _ _ _ hsome
      refine ⟨{ city := splitDashHead (cityKey r), country := r0.location.country
                providers := dedupFirstSeen ((r0 :: rs).map (fun r2 => r2.provider))
                regionCount := (r0 :: rs).length }, ?_, ?_, ?_, ?_⟩
      · show _ ∈ List.insertionSort cityGE _
        rw [(List.perm_insertionSort cityGE _).mem_iff]
        exact List.mem_map_of_mem _ hmemg
      · exact splitDashHead_cityKey r (hdash r hr)
      · show dedupFirstSeen ((r0 :: rs).map (fun r2 => r2.provider)) = _
        rw [← hgrp, hpair]
      · show (r0 :: rs).length = _
        rw [← hgrp, hpair]
  · intro e he
    have he2 : e ∈ (cityGroups regions).map (fun kg =>
        ({ city := splitDashHead kg.1, country := kg.2.country
           providers := kg.2.providers, regionCount := kg.2.count } : CityEntry)) :=
      (List.perm_insertionSort cityGE _).mem_iff.mp he
    obtain ⟨⟨k, g⟩, hkg, hek⟩ := List.mem_map.mp he2
    have hfv : findVal k (cityGroups regions) = some g :=
      findVal_of_mem_nodup _ _ _ hnodup hkg
    rw [hlookup] at hfv
    cases hgrp : regions.filter (fun r2 => cityKey r2 = k) with
    | nil =>
      rw [hgrp] at hfv
      simp [buildGroup] at hfv
    | cons r0 rs =>
      rw [hgrp, buildGroup_cons] at hfv
      injection hfv with hfv2
      have hr0mem : r0 ∈ regions.filter (fun r2 => cityKey r2 = k) := by
        rw [hgrp]
        exact List.mem_cons_self _ _
      have hr0 : r0 ∈ regions := (List.mem_filter.mp hr0mem).1
      have hk0 : cityKey r0 = k := by
        simpa using (List.mem_filter.mp hr0mem).2
      refine ⟨r0, hr0, ?_, ?_⟩
      · rw [← hek]
        show splitDashHead k = r0.location.city
        rw [← hk0]
        exact splitDashHead_cityKey r0 (hdash r0 hr0)
      · rw [← hek]
        show g.country = r0.location.country
        rw [← hfv2]

/-- Witness for the amended C5 at a concrete two-region dataset whose city
names are dash-free. -/
theorem listCities_groups_by_city_and_country_witness :
    (∀ r ∈ [regionParisOne, regionParisTwo], ('-' : Char) ∉ r.location.city.data)
    ∧ (listCities [regionParisOne, regionParisTwo]).Pairwise
        (fun a b => b.regionCount ≤ a.regionCount)
    ∧ (∀ e ∈ listCities [regionParisOne, regionParisTwo],
        ∃ r ∈ [regionParisOne, regionParisTwo],
          e.city = r.location.city ∧ e.country = r.location.country) :=
  ⟨by decide,
    (listCities_groups_by_city_and_country [regionParisOne, regionParisTwo] (by decide)).1,
    (listCities_groups_by_city_and_country [regionParisOne, regionParisTwo]
        (by decide)).2.2.2⟩

/-- C5 counterexample: a region whose city name contains the `'-'` delimiter
is listed under the truncated city name `Ho`, not under its city name, so the
output entry's city field differs from the city shared by its group. -/
theorem listCities_dash_city_counterexample :
    regionHoChiMinh.location.city = "Ho-Chi-Minh-City"
    ∧ listCities [regionHoChiMinh]
        = [{ city := "Ho", country := "Vietnam", providers := ["provider2"]
             regionCount := 1 }]
    ∧ ∀ e ∈ listCities [regionHoChiMinh], e.city ≠ regionHoChiMinh.location.city := by
  refine ⟨rfl, by rfl, ?_⟩
  intro e he
  have hone : e = { city := "Ho", country := "Vietnam", providers := ["provider2"]
                    regionCount := 1 } := by
    have h2 : listCities [regionHoChiMinh]
        = [{ city := "Ho", country := "Vietnam", providers := ["provider2"]
             regionCount := 1 }] := by rfl
    rw [h2] at he
    simpa using he
  rw [hone]
  decide

lemma sin_le_self (x : ℝ) (hx : 0 ≤ x) : Real.sin x ≤ x := by
  rcases eq_or_lt_of_le hx with h | h
  · rw [← h]
    simp
  · exact le_of_lt (Real.sin_lt h)

lemma arctan_le_self (t : ℝ) (ht : 0 ≤ t) : Real.arctan t ≤ t := by
  rcases eq_or_lt_of_le ht with h | h
  · rw [← h]
    simp
  · have hpos : 0 < Real.arctan t := by
      have := Real.arctan_strictMono h
      rwa [Real.arctan_zero] at this
    have hlt : Real.arctan t < Real.tan (Real.arctan t) :=
      Real.lt_tan hpos (Real.arctan_lt_pi_div_two t)
    rw [Real.tan_arctan] at hlt
    exact le_of_lt hlt

lemma le_arctan_of_div_le (s t : ℝ) (hs0 : 0 < s) (hs1 : s < 1)
    (h : s / (1 - s ^ 2 / 2) ≤ t) : s ≤ Real.arctan t := by
  have hπ := Real.pi_gt_three
  have hs2 : s < Real.pi / 2 := by nlinarith
  have hcos_pos : 0 < Real.cos s :=
    Real.cos_pos_of_mem_Ioo ⟨by nlinarith, hs2⟩
  have hden_pos : (0:ℝ) < 1 - s ^ 2 / 2 := by nlinarith
  have hcos_lb : 1 - s ^ 2 / 2 ≤ Real.cos s := Real.one_sub_sq_div_two_le_cos
  have htan : Real.tan s ≤ s / (1 - s ^ 2 / 2) := by
    rw [Real.tan_eq_sin_div_cos]
    have h1 : Real.sin s / Real.cos s ≤ s / Real.cos s :=
      (div_le_div_iff_of_pos_right hcos_pos).mpr (sin_le_self s hs0.le)
    have h2 : s / Real.cos s ≤ s / (1 - s ^ 2 / 2) :=
      div_le_div_of_nonneg_left hs0.le hden_pos hcos_lb
    exact le_trans h1 h2
  have htan2 : Real.tan s ≤ t := le_trans htan h
  have hmono := Real.arctan_strictMono.monotone htan2
  rwa [Real.arctan_tan (by nlinarith) hs2] at hmono

lemma dist_expr_lower (a s : ℝ) (ha0 : 0 ≤ a) (ha1 : a < 1) (hs0 : 0 < s) (hs1 : s < 1)
    (h : s / (1 - s ^ 2 / 2) ≤ Real.sqrt a) :
    6371 * (2 * s) ≤ 6371 * (2 * atan2 (Real.sqrt a) (Real.sqrt (1 - a))) := by
  have h1a0 : (0:ℝ) < 1 - a := by linarith
  have hden : 0 < Real.sqrt (1 - a) := Real.sqrt_pos.mpr h1a0
  have hden1 : Real.sqrt (1 - a) ≤ 1 :=
    (Real.sqrt_le_left (by norm_num)).mpr (by nlinarith)
  have hratio : Real.sqrt a ≤ Real.sqrt a / Real.sqrt (1 - a) := by
    rw [le_div_iff₀ hden]
    nlinarith [Real.sqrt_nonneg a]
  rw [atan2, if_pos hden]
  have harc := le_arctan_of_div_le s (Real.sqrt a / Real.sqrt (1 - a)) hs0 hs1
    (le_trans h hratio)
  nlinarith

lemma dist_expr_upper (a t : ℝ) (ha1 : a < 1)
    (h : Real.sqrt a / Real.sqrt (1 - a) ≤ t) :
    6371 * (2 * atan2 (Real.sqrt a) (Real.sqrt (1 - a))) ≤ 6371 * (2 * t) := by
  have h1a0 : (0:ℝ) < 1 - a := by linarith
  have hden : 0 < Real.sqrt (1 - a) := Real.sqrt_pos.mpr h1a0
  rw [atan2, if_pos hden]
  have hratio0 : 0 ≤ Real.sqrt a / Real.sqrt (1 - a) :=
    div_nonneg (Real.sqrt_nonneg a) (Real.sqrt_nonneg (1 - a))
  have harc := arctan_le_self (Real.sqrt a / Real.sqrt (1 - a)) hratio0
  nlinarith

lemma deg_cos_bounds (q : ℝ) (h0 : 0 ≤ q) (h1 : q ≤ 89) :
    0 ≤ Real.cos (q * Real.pi / 180) ∧ Real.cos (q * Real.pi / 180) ≤ 1 := by
  have hπ := Real.pi_pos
  refine ⟨Real.cos_nonneg_of_mem_Icc (Set.mem_Icc.mpr ⟨by nlinarith, by nlinarith⟩),
    Real.cos_le_one _⟩

lemma small_sin_sq_bounds (c lo hi : ℝ) (hc0 : 0 < c) (hlo : 0 ≤ lo)
    (hL : lo < c - c ^ 3 / 4) (hU : c < hi) (hc1 : c ≤ 1) :
    lo * lo < Real.sin c * Real.sin c ∧ Real.sin c * Real.sin c < hi * hi := by
  have h1 := Real.sin_gt_sub_cube hc0 hc1
  have h2 := Real.sin_lt hc0
  have hπ := Real.pi_gt_three
  have h0 : 0 < Real.sin c := Real.sin_pos_of_pos_of_lt_pi hc0 (by linarith)
  constructor
  · nlinarith
  · nlinarith

set_option maxHeartbeats 1600000 in
lemma paris_a_bounds :
    (0.0000000033:ℝ) < Real.sin (0.0033 * Real.pi / 180) * Real.sin (0.0033 * Real.pi / 180) +
        Real.cos (48.8566 * Real.pi / 180) * Real.cos (48.85 * Real.pi / 180) *
            Real.sin (0.0011 * Real.pi / 180) * Real.sin (0.0011 * Real.pi / 180)
    ∧ Real.sin (0.0033 * Real.pi / 180) * Real.sin (0.0033 * Real.pi / 180) +
        Real.cos (48.8566 * Real.pi / 180) * Real.cos (48.85 * Real.pi / 180) *
            Real.sin (0.0011 * Real.pi / 180) * Real.sin (0.0011 * Real.pi / 180)
        < 0.0000000038
    ∧ (0:ℝ) ≤ Real.sin (0.0033 * Real.pi / 180) * Real.sin (0.0033 * Real.pi / 180) +
        Real.cos (48.8566 * Real.pi / 180) * Real.cos (48.85 * Real.pi / 180) *
            Real.sin (0.0011 * Real.pi / 180) * Real.sin (0.0011 * Real.pi / 180) := by
  have hπ1 : (3.141592:ℝ) < Real.pi := Real.pi_gt_d6
  have hπ2 : Real.pi < 3.141593 := Real.pi_lt_d6
  have hu0 : (0:ℝ) < 0.0033 * Real.pi / 180 := by positivity
  have huU : 0.0033 * Real.pi / 180 < 0.0000575959 := by linarith
  have huL : (0.0000575958:ℝ) < 0.0033 * Real.pi / 180 := by linarith
  have hucube : (0.0033 * Real.pi / 180) ^ 3 < (0.0000575959:ℝ) ^ 3 :=
    pow_lt_pow_left₀ huU hu0.le (by norm_num)
  have hsu := small_sin_sq_bounds (0.0033 * Real.pi / 180) 0.0000575957 0.0000575959
    hu0 (by norm_num) (by linarith) huU (by linarith)
  have hv0 : (0:ℝ) < 0.0011 * Real.pi / 180 := by positivity
  have hvU : 0.0011 * Real.pi / 180 < 0.0000192 := by linarith
  have hvcube : (0.0011 * Real.pi / 180) ^ 3 ≤ 0.0011 * Real.pi / 180 :=
    pow_le_of_le_one hv0.le (by linarith) (by norm_num)
  have hsv := small_sin_sq_bounds (0.0011 * Real.pi / 180) 0 0.0000192
    hv0 le_rfl (by linarith) hvU (by linarith)
  have hsv0 : 0 < Real.sin (0.0011 * Real.pi / 180) :=
    Real.sin_pos_of_pos_of_lt_pi hv0 (by linarith)
  have hc1 := deg_cos_bounds 48.8566 (by norm_num) (by norm_num)
  have hc2 := deg_cos_bounds 48.85 (by norm_num) (by norm_num)
  have hct0 : 0 ≤ Real.cos (48.8566 * Real.pi / 180) * Real.cos (48.85 * Real.pi / 180) *
      Real.sin (0.0011 * Real.pi / 180) * Real.sin (0.0011 * Real.pi / 180) :=
    mul_nonneg (mul_nonneg (mul_nonneg hc1.1 hc2.1) hsv0.le) hsv0.le
  have hcc1 : Real.cos (48.8566 * Real.pi / 180) * Real.cos (48.85 * Real.pi / 180) ≤ 1 := by
    nlinarith [hc1.1, hc1.2, hc2.1, hc2.2]
  have hctU : Real.cos (48.8566 * Real.pi / 180) * Real.cos (48.85 * Real.pi / 180) *
      Real.sin (0.0011 * Real.pi / 180) * Real.sin (0.0011 * Real.pi / 180)
      ≤ Real.sin (0.0011 * Real.pi / 180) * Real.sin (0.0011 * Real.pi / 180) := by
    nlinarith [mul_nonneg (sub_nonneg.mpr hcc1)
      (mul_self_nonneg (Real.sin (0.0011 * Real.pi / 180)))]
  refine ⟨by linarith [hsu.1, hct0], by linarith [hsu.2, hsv.2, hctU],
    by linarith [mul_self_nonneg (Real.sin (0.0033 * Real.pi / 180)), hct0]⟩

set_option maxHeartbeats 1600000 in
lemma frankfurt_a_bounds :
    (0.0001168:ℝ) < Real.sin (0.6217 * Real.pi / 180) * Real.sin (0.6217 * Real.pi / 180) +
        Real.cos (48.8566 * Real.pi / 180) * Real.cos (50.1 * Real.pi / 180) *
            Real.sin (3.1739 * Real.pi / 180) * Real.sin (3.1739 * Real.pi / 180)
    ∧ Real.sin (0.6217 * Real.pi / 180) * Real.sin (0.6217 * Real.pi / 180) +
        Real.cos (48.8566 * Real.pi / 180) * Real.cos (50.1 * Real.pi / 180) *
            Real.sin (3.1739 * Real.pi / 180) * Real.sin (3.1739 * Real.pi / 180)
        < 0.0033
    ∧ (0:ℝ) ≤ Real.sin (0.6217 * Real.pi / 180) * Real.sin (0.6217 * Real.pi / 180) +
        Real.cos (48.8566 * Real.pi / 180) * Real.cos (50.1 * Real.pi / 180) *
            Real.sin (3.1739 * Real.pi / 180) * Real.sin (3.1739 * Real.pi / 180) := by
  have hπ1 : (3.141592:ℝ) < Real.pi := Real.pi_gt_d6
  have hπ2 : Real.pi < 3.141593 := Real.pi_lt_d6
  have hu0 : (0:ℝ) < 0.6217 * Real.pi / 180 := by positivity
  have huU : 0.6217 * Real.pi / 180 < 0.0109 := by linarith
  have huL : (0.0108507:ℝ) < 0.6217 * Real.pi / 180 := by linarith
  have hucube : (0.6217 * Real.pi / 180) ^ 3 < (0.0109:ℝ) ^ 3 :=
    pow_lt_pow_left₀ huU hu0.le (by norm_num)
  have hsu := small_sin_sq_bounds (0.6217 * Real.pi / 180) 0.01081 0.0109
    hu0 (by norm_num) (by linarith) huU (by linarith)
  have hv0 : (0:ℝ) < 3.1739 * Real.pi / 180 := by positivity
  have hvU : 3.1739 * Real.pi / 180 < 0.0554 := by linarith
  have hvcube : (3.1739 * Real.pi / 180) ^ 3 ≤ 3.1739 * Real.pi / 180 :=
    pow_le_of_le_one hv0.le (by linarith) (by norm_num)
  have hsv := small_sin_sq_bounds (3.1739 * Real.pi / 180) 0 0.0554
    hv0 le_rfl (by linarith) hvU (by linarith)
  have hsv0 : 0 < Real.sin (3.1739 * Real.pi / 180) :=
    Real.sin_pos_of_pos_of_lt_pi hv0 (by linarith)
  have hc1 := deg_cos_bounds 48.8566 (by norm_num) (by norm_num)
  have hc2 := deg_cos_bounds 50.1 (by norm_num) (by norm_num)
  have hct0 : 0 ≤ Real.cos (48.8566 * Real.pi / 180) * Real.cos (50.1 * Real.pi / 180) *
      Real.sin (3.1739 * Real.pi / 180) * Real.sin (3.1739 * Real.pi / 180) :=
    mul_nonneg (mul_nonneg (mul_nonneg hc1.1 hc2.1) hsv0.le) hsv0.le
  have hcc1 : Real.cos (48.8566 * Real.pi / 180) * Real.cos (50.1 * Real.pi / 180) ≤ 1 := by
    nlinarith [hc1.1, hc1.2, hc2.1, hc2.2]
  have hctU : Real.cos (48.8566 * Real.pi / 180) * Real.cos (50.1 * Real.pi / 180) *
      Real.sin (3.1739 * Real.pi / 180) * Real.sin (3.1739 * Real.pi / 180)
      ≤ Real.sin (3.1739 * Real.pi / 180) * Real.sin (3.1739 * Real.pi / 180) := by
    nlinarith [mul_nonneg (sub_nonneg.mpr hcc1)
      (mul_self_nonneg (Real.sin (3.1739 * Real.pi / 180)))]
  refine ⟨by linarith [hsu.1, hct0], by linarith [hsu.2, hsv.2, hctU],
    by linarith [mul_self_nonneg (Real.sin (0.6217 * Real.pi / 180)), hct0]⟩

lemma haversineDistance_paris_bounds :
    (0.7:ℝ) < haversineDistance 48.8566 2.3522 48.85 2.35
    ∧ haversineDistance 48.8566 2.3522 48.85 2.35 < 0.8 := by
  have h3 : ((48.8566:ℚ):ℝ) = 48.8566 := by norm_num
  have h4 : ((48.85:ℚ):ℝ) = 48.85 := by norm_num
  have h5 : ((2.3522:ℚ):ℝ) = 2.3522 := by norm_num
  have h6 : ((2.35:ℚ):ℝ) = 2.35 := by norm_num
  have harg1 : ((48.85:ℝ) - 48.8566) * Real.pi / 180 / 2 = -(0.0033 * Real.pi / 180) := by
    ring
  have harg2 : ((2.35:ℝ) - 2.3522) * Real.pi / 180 / 2 = -(0.0011 * Real.pi / 180) := by
    ring
  simp only [haversineDistance, h3, h4, h5, h6, harg1, harg2, Real.sin_neg, mul_neg,
    neg_mul, neg_neg]
  obtain ⟨hEl, hEu, hE0⟩ := paris_a_bounds
  constructor
  · refine lt_of_lt_of_le (by norm_num)
      (dist_expr_lower _ 0.000057 hE0 (by linarith) (by norm_num) (by norm_num) ?_)
    have h1 : (0.0000574:ℝ) < Real.sqrt
        (Real.sin (0.0033 * Real.pi / 180) * Real.sin (0.0033 * Real.pi / 180) +
          Real.cos (48.8566 * Real.pi / 180) * Real.cos (48.85 * Real.pi / 180) *
              Real.sin (0.0011 * Real.pi / 180) * Real.sin (0.0011 * Real.pi / 180)) := by
      rw [Real.lt_sqrt (by norm_num)]
      nlinarith [hEl]
    have h2 : (0.000057:ℝ) / (1 - 0.000057 ^ 2 / 2) ≤ 0.0000571 := by norm_num
    linarith
  · refine lt_of_le_of_lt (dist_expr_upper _ 0.0000618 (by linarith) ?_) (by norm_num)
    have hsqU : Real.sqrt
        (Real.sin (0.0033 * Real.pi / 180) * Real.sin (0.0033 * Real.pi / 180) +
          Real.cos (48.8566 * Real.pi / 180) * Real.cos (48.85 * Real.pi / 180) *
              Real.sin (0.0011 * Real.pi / 180) * Real.sin (0.0011 * Real.pi / 180))
        ≤ 0.0000617 := by
      rw [Real.sqrt_le_left (by norm_num)]
      nlinarith [hEu]
    have h1E : (0.999:ℝ) ≤ Real.sqrt
        (1 - (Real.sin (0.0033 * Real.pi / 180) * Real.sin (0.0033 * Real.pi / 180) +
          Real.cos (48.8566 * Real.pi / 180) * Real.cos (48.85 * Real.pi / 180) *
              Real.sin (0.0011 * Real.pi / 180) * Real.sin (0.0011 * Real.pi / 180))) := by
      rw [Real.le_sqrt (by norm_num) (by linarith)]
      nlinarith [hEu, hE0]
    have hdiv := div_le_div₀ (by norm_num : (0:ℝ) ≤ 0.0000617) hsqU
      (by norm_num : (0:ℝ) < 0.999) h1E
    have hnum : (0.0000617:ℝ) / 0.999 ≤ 0.0000618 := by norm_num
    linarith

lemma haversineDistance_frankfurt_lower :
    (100:ℝ) < haversineDistance 48.8566 2.3522 50.1 8.7 := by
  have h3 : ((48.8566:ℚ):ℝ) = 48.8566 := by norm_num
  have h5 : ((2.3522:ℚ):ℝ) = 2.3522 := by norm_num
  have h7 : ((50.1:ℚ):ℝ) = 50.1 := by norm_num
  have h8 : ((8.7:ℚ):ℝ) = 8.7 := by norm_num
  have harg1 : ((50.1:ℝ) - 48.8566) * Real.pi / 180 / 2 = 0.6217 * Real.pi / 180 := by
    ring
  have harg2 : ((8.7:ℝ) - 2.3522) * Real.pi / 180 / 2 = 3.1739 * Real.pi / 180 := by
    ring
  simp only [haversineDistance, h3, h5, h7, h8, harg1, harg2]
  obtain ⟨hEl, hEu, hE0⟩ := frankfurt_a_bounds
  refine lt_of_lt_of_le (by norm_num)
    (dist_expr_lower _ 0.0107 hE0 (by linarith) (by norm_num) (by norm_num) ?_)
  have h1 : (0.0108:ℝ) < Real.sqrt
      (Real.sin (0.6217 * Real.pi / 180) * Real.sin (0.6217 * Real.pi / 180) +
        Real.cos (48.8566 * Real.pi / 180) * Real.cos (50.1 * Real.pi / 180) *
            Real.sin (3.1739 * Real.pi / 180) * Real.sin (3.1739 * Real.pi / 180)) := by
    rw [Real.lt_sqrt (by norm_num)]
    nlinarith [hEl]
  have h2 : (0.0107:ℝ) / (1 - 0.0107 ^ 2 / 2) ≤ 0.010701 := by norm_num
  linarith

lemma jsRound_paris : jsRound (haversineDistance 48.8566 2.3522 48.85 2.35) = 1 := by
  obtain ⟨h1, h2⟩ := haversineDistance_paris_bounds
  unfold jsRound
  rw [Int.floor_eq_iff]
  constructor
  · push_cast
    linarith
  · push_cast
    linarith

lemma jsRound_frankfurt : 2 ≤ jsRound (haversineDistance 48.8566 2.3522 50.1 8.7) := by
  have h := haversineDistance_frankfurt_lower
  unfold jsRound
  rw [Int.le_floor]
  push_cast
  linarith

lemma findNearby_paris_eval :
    findNearbyRegions noProviders [regionFrankfurtA, regionParisB] nearbyParisSearch
      = [{ toCloudRegion := regionParisB, distanceKm := 1 }] := by
  have hA := jsRound_frankfurt
  simp only [findNearbyRegions, nearbyParisSearch, List.map_cons, List.map_nil,
    regionFrankfurtA, regionParisB]
  rw [jsRound_paris]
  simp only [List.insertionSort, List.orderedInsert, distLE]
  rw [if_neg (by omega)]
  rfl

/-- C4 counterexample: on the two-region dataset of the scenario, the nearby
query with limit 1 does return the Paris region alone, but its attached
rounded distance is 1 km, not 0 km as the claim states: the target
(48.8566, 2.3522) is about 0.75 km from (48.85, 2.35) and `Math.round`
rounds that to 1. -/
theorem findNearby_paris_distance_not_zero :
    (findNearbyRegions noProviders [regionFrankfurtA, regionParisB] nearbyParisSearch).map
        (fun e => e.distanceKm) = [1]
    ∧ findNearbyRegions noProviders [regionFrankfurtA, regionParisB] nearbyParisSearch
        ≠ [{ toCloudRegion := regionParisB, distanceKm := 0 }] := by
  refine ⟨by rw [findNearby_paris_eval]; rfl, fun h => ?_⟩
  rw [findNearby_paris_eval] at h
  simp at h

/-- C4 (amended): the nearby query of the scenario returns exactly the Paris
region, with rounded distance 1 km (not 0 km). -/
theorem findNearby_paris_returns_B_at_one_km :
    findNearbyRegions noProviders [regionFrankfurtA, regionParisB] nearbyParisSearch
      = [{ toCloudRegion := regionParisB, distanceKm := 1 }] :=
  findNearby_paris_eval
